import Mathlib

/-!
Shallow embedding of `src/bin/generate_jobs.py` (the state detector `status`,
the log scanner `done`, and the per-job action sequence of `main`), together
with theorems settling the specification claims about them.

Paths are strings; the filesystem is a finite model (`FS`) holding the set of
existing directories and a map from file paths to their lines.  Python
exceptions are modelled with `PyErr`; side-effecting operations return an
`Out` record carrying the resulting world, the trace of externally visible
effects, and the propagating exception, if any.
-/

namespace GenerateJobs

/-! ## String and path helpers (posixpath semantics) -/

def strEndsWith (s t : String) : Bool := t.data.isSuffixOf s.data

def strStartsWith (s t : String) : Bool := t.data.isPrefixOf s.data

/-- Python `t in s`: some suffix of `s` starts with `t`. -/
def strContainsSub (s t : String) : Bool :=
  s.data.tails.any (fun u => t.data.isPrefixOf u)

/-- The whitespace characters stripped by Python `str.rstrip()`. -/
def pyIsSpace (c : Char) : Bool :=
  c == ' ' || c == '\t' || c == '\n' || c == '\r' || c == '\x0b' || c == '\x0c'

def pyRstrip (s : String) : String :=
  ⟨(s.data.reverse.dropWhile pyIsSpace).reverse⟩

/-- Python `str.rfind(c)`: index of the last occurrence, `-1` if absent. -/
def pyRfind (cs : List Char) (c : Char) : Int :=
  match (cs.enum.filter (fun p => p.2 == c)).getLast? with
  | some p => (p.1 : Int)
  | none => -1

/-- `os.path.splitext(p)[0]` (posixpath): cut at the last dot of the basename,
unless every character of the basename before that dot is itself a dot. -/
def splitextRoot (p : String) : String :=
  let cs := p.data
  let sepIndex := pyRfind cs '/'
  let dotIndex := pyRfind cs '.'
  if sepIndex < dotIndex then
    let filenameIndex := (sepIndex + 1).toNat
    if (List.range' filenameIndex (dotIndex.toNat - filenameIndex)).any
        (fun i => cs.get? i != some '.') then
      ⟨cs.take dotIndex.toNat⟩
    else p
  else p

/-- `os.path.join(a, b)` (posixpath, two components). -/
def pyJoin (a b : String) : String :=
  if strStartsWith b "/" then b
  else if a == "" || strEndsWith a "/" then a ++ b
  else a ++ "/" ++ b

/-- `os.path.basename`: everything after the last slash. -/
def pyBasename (p : String) : String :=
  ⟨(p.data.reverse.takeWhile (fun c => c != '/')).reverse⟩

/-- `os.path.dirname` (posixpath). -/
def pyDirname (p : String) : String :=
  let cs := p.data
  let head := cs.take ((pyRfind cs '/') + 1).toNat
  if !head.isEmpty && head.any (fun c => c != '/') then
    ⟨(head.reverse.dropWhile (fun c => c == '/')).reverse⟩
  else ⟨head⟩

/-- Python `s.split(sep)` for a single-character separator, slash here:
no collapsing of empty fields. -/
def splitOnSlash : List Char → List (List Char)
  | [] => [[]]
  | c :: rest =>
    if c == '/' then [] :: splitOnSlash rest
    else
      match splitOnSlash rest with
      | [] => [[c]]
      | g :: gs => (c :: g) :: gs

/-- `s.split(sep)[-1]` with sep a slash. -/
def lastSlashComp (s : String) : String :=
  ⟨((splitOnSlash s.data).getLast?).getD []⟩

/-! ## Filesystem model -/

/-- A finite model of the working filesystem: the set of existing directories
and a map from file paths to their lines (line terminators stripped). -/
structure FS where
  dirs : List String
  files : List (String × List String)
deriving DecidableEq, Repr

def FS.isDir (fs : FS) (p : String) : Bool := fs.dirs.any (fun q => q == p)

def FS.isFile (fs : FS) (p : String) : Bool := fs.files.any (fun e => e.1 == p)

/-- `os.path.exists`: true for directories and for plain files. -/
def pathExists (fs : FS) (p : String) : Bool := fs.isDir p || fs.isFile p

def FS.findFile (fs : FS) (p : String) : Option (List String) :=
  (fs.files.find? (fun e => e.1 == p)).map Prod.snd

/-- The name of `p` as a direct child of directory `d`, when it is one. -/
def childNameOf (d p : String) : Option String :=
  let pre := (d ++ "/").data
  if pre.isPrefixOf p.data then
    let rest := p.data.drop pre.length
    if !rest.isEmpty && !rest.contains '/' then some ⟨rest⟩ else none
  else none

/-- The directory entries (files and subdirectories) directly inside `d`. -/
def childNames (fs : FS) (d : String) : List String :=
  (fs.files.map Prod.fst ++ fs.dirs).filterMap (childNameOf d)

/-- Python exceptions that the embedded code can raise. -/
inductive PyErr where
  | assertionError : PyErr
  | fileNotFoundError : String → PyErr
  | osError : String → PyErr
  | ioError : String → String → PyErr
deriving DecidableEq, Repr

deriving instance DecidableEq for Except

/-- `os.listdir`: entries of a directory; raises `FileNotFoundError` when the
path is missing and an `OSError` when it is a plain file. -/
def listdir (fs : FS) (d : String) : Except PyErr (List String) :=
  if fs.isDir d then .ok (childNames fs d)
  else if fs.isFile d then .error (.osError d)
  else .error (.fileNotFoundError d)

/-- `glob.glob(os.path.join(dir, "*" ++ suffix))`: the non-hidden entries of
`dir` whose name ends with `suffix`, returned as joined paths. -/
def globStar (fs : FS) (dir suffix : String) : List String :=
  ((childNames fs dir).filter
    (fun n => n.data.head? != some '.' && strEndsWith n suffix)).map (pyJoin dir)

/-! ## The log scanner `done` -/

/-- One `done` check on a single log line (each test rstrips the line first,
exactly as the source does). -/
def isTerminalLine (line : String) : Bool :=
  strEndsWith (pyRstrip line) "Final process status is success" ||
  strEndsWith (pyRstrip line) "Joining real-time logging server thread." ||
  strEndsWith (pyRstrip line) "KeyboardInterrupt" ||
  strContainsSub (pyRstrip line) "permanentFail"

def doneLines (lines : List String) : Bool := lines.any isTerminalLine

/-- `done(log_file)`: open the log and scan every line; opening a missing
path (or a directory) raises. -/
def doneFile (fs : FS) (p : String) : Except PyErr Bool :=
  match fs.findFile p with
  | some lines => .ok (doneLines lines)
  | none => .error (if fs.isDir p then .osError p else .fileNotFoundError p)

/-! ## The state detector `status` -/

/-- `status(fn)`: the state detector.  Mirrors the source: the run directory
is the descriptor path without its extension; exactly one `*_LOG.txt` match
proceeds (results listing, then the `done` scan only when results are empty);
zero matches return queued; more than one re-raises the `AssertionError`;
a missing run directory returns the unsubmitted triple. -/
def status (fs : FS) (fn : String) : Except PyErr (Nat × Option String × Option String) :=
  let run_dir := splitextRoot fn
  let results_dir := pyJoin run_dir "results"
  if pathExists fs run_dir then
    match globStar fs run_dir "_LOG.txt" with
    | [log_file] =>
      match listdir fs results_dir with
      | .error e => .error e
      | .ok entries =>
        if entries = [] then
          match doneFile fs log_file with
          | .error e => .error e
          | .ok true => .ok (1, some run_dir, some log_file)
          | .ok false => .ok (0, some run_dir, some log_file)
        else
          .ok (0, some run_dir, some log_file)
    | [] => .ok (0, some run_dir, none)
    | _ :: _ :: _ => .error .assertionError
  else
    .ok (0, none, none)

/-! ## Worlds, events and outcomes for the action orchestrator -/

/-- An externally visible effect performed by the orchestrator. -/
inductive Event where
  | uploadFile : String → String → Event
  | uploadDir : String → String → Event
  | localCopyDir : String → String → Event
  | localCopyFile : String → String → Event
  | submitted : String → String → Event
  | removedTree : String → Event
  | removedFile : String → Event
deriving DecidableEq, Repr

/-- The world an orchestrator step acts on: the filesystem plus fault
injections for the three remote or copy operations that can fail
(`failUpload` for `s3.upload_file`, `failUploadDir` for the recursive
`aws s3 cp` subprocess, `failCopyDir` for `shutil.copytree`). -/
structure World where
  fs : FS
  failUpload : List String
  failUploadDir : List String
  failCopyDir : List String
deriving DecidableEq, Repr

/-- Outcome of a step sequence: the resulting world, the trace of effects
that actually happened, and the exception propagating out, if any. -/
structure Out where
  world : World
  trace : List Event
  exn : Option PyErr
deriving DecidableEq, Repr

/-- Sequencing: an uncaught exception aborts the continuation; effects of
completed steps remain in the trace. -/
def Out.andThen (o : Out) (f : World → Out) : Out :=
  match o.exn with
  | some _ => o
  | none =>
    let o2 := f o.world
    ⟨o2.world, o.trace ++ o2.trace, o2.exn⟩

/-! ## Filesystem mutation helpers -/

def FS.addFile (fs : FS) (p : String) (lines : List String) : FS :=
  { fs with files := fs.files ++ [(p, lines)] }

/-- `p` lies strictly inside directory `d`. -/
def pathUnder (d p : String) : Bool := (d ++ "/").data.isPrefixOf p.data

def FS.rmTree (fs : FS) (p : String) : FS :=
  { dirs := fs.dirs.filter (fun q => !(q == p || pathUnder p q)),
    files := fs.files.filter (fun e => !(e.1 == p || pathUnder p e.1)) }

def FS.rmFile (fs : FS) (p : String) : FS :=
  { fs with files := fs.files.filter (fun e => !(e.1 == p)) }

/-- Rebase a path from under `src` to under `dst` (for `shutil.copytree`). -/
def rebasePath (src dst p : String) : Option String :=
  if p == src then some dst
  else if pathUnder src p then some (dst ++ ⟨p.data.drop src.length⟩)
  else none

/-- Duplicate the subtree rooted at `src` under `dst`. -/
def FS.copyTree (fs : FS) (src dst : String) : FS :=
  { dirs := fs.dirs ++ fs.dirs.filterMap (fun q => rebasePath src dst q),
    files := fs.files ++
      fs.files.filterMap (fun e => (rebasePath src dst e.1).map (fun q => (q, e.2))) }

/-! ## The effectful operations of generate_jobs.py -/

/-- `copy_files_aws(src, dest)`: `s3.upload_file(src, dest, basename src)`;
any client error is logged and re-raised.  Remote failures are injected
through `failUpload`. -/
def copy_files_aws (w : World) (src dest : String) : Out :=
  if w.failUpload.contains src then ⟨w, [], some (.ioError "upload_file" src)⟩
  else ⟨w, [.uploadFile src dest], none⟩

/-- `src if src.endswith("/") else src + "/"`, as both copy helpers start. -/
def ensureSlash (p : String) : String :=
  if strEndsWith p "/" then p else p ++ "/"

def stripSlash (p : String) : String :=
  if strEndsWith p "/" then ⟨p.data.dropLast⟩ else p

/-- The destination directory `copy_dir` computes:
`os.path.join(dest, os.path.dirname(src + "/").split("/")[-1] + "/")`,
with the trailing slash stripped for the filesystem model. -/
def copyDirTarget (src dest : String) : String :=
  stripSlash (pyJoin dest (lastSlashComp (pyDirname (ensureSlash src)) ++ "/"))

/-- `copy_dir(src, dest)`: `shutil.copytree` of the run directory into the
durable local store; `ENOTDIR` falls back to `shutil.copy`, `EEXIST` warns
and skips, every other `OSError` is re-raised.  Non-existence of `src`
raises; other copy failures are injected through `failCopyDir`. -/
def copy_dir (w : World) (src dest : String) : Out :=
  let s := stripSlash (ensureSlash src)
  let target := copyDirTarget src dest
  if !pathExists w.fs s then ⟨w, [], some (.fileNotFoundError s)⟩
  else if w.fs.isFile s then
    ⟨{ w with fs := w.fs.addFile target ((w.fs.findFile s).getD []) },
     [.localCopyFile s target], none⟩
  else if pathExists w.fs target then ⟨w, [], none⟩
  else if w.failCopyDir.contains src then ⟨w, [], some (.ioError "copytree" src)⟩
  else ⟨{ w with fs := w.fs.copyTree s target }, [.localCopyDir s target], none⟩

/-- `"s3://" + bucket` unless already prefixed. -/
def s3Bucket (bucket : String) : String :=
  if strStartsWith bucket "s3://" then bucket else "s3://" ++ bucket

/-- The s3 destination `copy_dir_aws` computes:
`os.path.join(bucket, os.path.dirname(src + "/").split("/")[-1] + "/")`. -/
def awsUploadDest (src bucket : String) : String :=
  pyJoin (s3Bucket bucket) (lastSlashComp (pyDirname (ensureSlash src)) ++ "/")

/-- `copy_dir_aws(src, bucket)`: shells out to `aws s3 cp --recursive`.
Every exception is caught and only logged — never re-raised — so a failed
recursive upload does not abort the calling sequence. -/
def copy_dir_aws (w : World) (src bucket : String) : Out :=
  if w.failUploadDir.contains src then ⟨w, [], none⟩
  else ⟨w, [.uploadDir (ensureSlash src) (awsUploadDest src bucket)], none⟩

/-- `remove(to_remove)`: `shutil.rmtree`, falling back to `os.remove` when
rmtree raises an `OSError` (the path is not a directory). -/
def remove (w : World) (p : String) : Out :=
  if w.fs.isDir p then ⟨{ w with fs := w.fs.rmTree p }, [.removedTree p], none⟩
  else if w.fs.isFile p then ⟨{ w with fs := w.fs.rmFile p }, [.removedFile p], none⟩
  else ⟨w, [], some (.fileNotFoundError p)⟩

/-- `remove_file(to_remove)`: `os.remove` guarded by an existence check;
a missing path is only warned about, a directory makes `os.remove` raise. -/
def remove_file (w : World) (p : String) : Out :=
  if pathExists w.fs p then
    if w.fs.isFile p then ⟨{ w with fs := w.fs.rmFile p }, [.removedFile p], none⟩
    else ⟨w, [], some (.osError p)⟩
  else ⟨w, [], none⟩

/-! ## The intermediate-file pruning and its regular expressions -/

/-- Python `\w` (ASCII word character, which also covers `\d`). -/
def isWordChar (c : Char) : Bool := c.isAlphanum || c == '_'

/-- The regex constructs appearing in the pruning patterns. -/
inductive RTok where
  | lit : Char → RTok
  | anyChar : RTok
  | wordPlus : RTok
  | digitPlus : RTok
deriving DecidableEq, Repr

/-- Compile the concrete pattern strings of the source into tokens:
`[\w\d]+`, `[\d]+`, grouping parentheses (capture is irrelevant), the `$`
anchor (every pattern ends with it; see `pyMatch`), `.` as any character,
and everything else as a literal. -/
def compileRegex : List Char → List RTok
  | '[' :: '\\' :: 'w' :: '\\' :: 'd' :: ']' :: '+' :: rest => .wordPlus :: compileRegex rest
  | '[' :: '\\' :: 'd' :: ']' :: '+' :: rest => .digitPlus :: compileRegex rest
  | '(' :: rest => compileRegex rest
  | ')' :: rest => compileRegex rest
  | '$' :: rest => compileRegex rest
  | '.' :: rest => .anyChar :: compileRegex rest
  | c :: rest => .lit c :: compileRegex rest
  | [] => []

def suffixSplits (cs : List Char) : List (List Char × List Char) :=
  (List.range (cs.length + 1)).map (fun i => (cs.take i, cs.drop i))

/-- Backtracking matcher requiring the whole input to be consumed. -/
def rmatch : List RTok → List Char → Bool
  | [], cs => cs.isEmpty
  | .lit _ :: _, [] => false
  | .lit c :: ts, d :: ds => c == d && rmatch ts ds
  | .anyChar :: _, [] => false
  | .anyChar :: ts, _ :: ds => rmatch ts ds
  | .wordPlus :: ts, cs =>
    (suffixSplits cs).any
      (fun ab => !ab.1.isEmpty && ab.1.all isWordChar && rmatch ts ab.2)
  | .digitPlus :: ts, cs =>
    (suffixSplits cs).any
      (fun ab => !ab.1.isEmpty && ab.1.all Char.isDigit && rmatch ts ab.2)

/-- `re.compile(pattern).match(f)` for the pruning patterns: they all end in
`$`, so a match is a full-string match. -/
def pyMatch (pattern f : String) : Bool := rmatch (compileRegex pattern.data) f.data

/-- Inner loop of `remove_unnecessary_intermediates` for one suffix:
remove every listed name matching `[\w\d]+ ++ suffix`. -/
def pruneNames (resResults suffix : String) : World → List String → Out
  | w, [] => ⟨w, [], none⟩
  | w, f :: rest =>
    if pyMatch ("[\\w\\d]+" ++ suffix) f then
      (remove_file w (pyJoin resResults f)).andThen
        (fun w2 => pruneNames resResults suffix w2 rest)
    else pruneNames resResults suffix w rest

/-- One suffix pass: re-list `res/results` (raising if it is missing), then
prune the matches. -/
def pruneSuffix (res suffix : String) (w : World) : Out :=
  match listdir w.fs (pyJoin res "results") with
  | .error e => ⟨w, [], some e⟩
  | .ok names => pruneNames (pyJoin res "results") suffix w names

/-- `remove_unnecessary_intermediates(res, pipeline)`: the dropseqtools
pipeline has ten disposable-intermediate suffix patterns; any other pipeline
name selects the empty list. -/
def remove_unnecessary_intermediates (w : World) (res pipeline : String) : Out :=
  let suffixes_to_remove :=
    if pipeline == "dropseqtools" then
      [".sam$",
       ".tagged([\\d]+-[\\d]+).bam$",
       ".tagged([\\d]+-[\\d]+).tagged([\\d]+-[\\d]+).bam$",
       ".tagged([\\d]+-[\\d]+).tagged([\\d]+-[\\d]+).filtered.trimmed_smart.bam$",
       ".tagged([\\d]+-[\\d]+).tagged([\\d]+-[\\d]+).filtered.trimmed_smart.polyA_filtered.bam$",
       ".tagged([\\d]+-[\\d]+).tagged([\\d]+-[\\d]+).filtered.trimmed_smart.polyA_filtered.STARAligned.out.bam$",
       ".tagged([\\d]+-[\\d]+).tagged([\\d]+-[\\d]+).filtered.trimmed_smart.polyA_filtered.STARUnmapped.out.mate1$",
       ".tagged([\\d]+-[\\d]+).tagged([\\d]+-[\\d]+).filtered.trimmed_smart.polyA_filtered.STARAligned.out.namesorted.bam$",
       ".tagged([\\d]+-[\\d]+).tagged([\\d]+-[\\d]+).filtered.trimmed_smart.polyA_filtered.STARAligned.out.namesorted.merged.bam$",
       ".tagged([\\d]+-[\\d]+).tagged([\\d]+-[\\d]+).filtered.trimmed_smart.polyA_filtered.STARAligned.out.namesorted.merged.TaggedGeneExon.bam$"]
    else []
  suffixes_to_remove.foldl (fun o suffix => o.andThen (pruneSuffix res suffix)) ⟨w, [], none⟩

/-! ## Submission and the per-job orchestrator -/

/-- `bash_script = os.path.join(work_dir, os.path.basename(fn) + ".sh")`. -/
def bashScriptPath (work_dir fn : String) : String :=
  pyJoin work_dir (pyBasename fn ++ ".sh")

/-- The `priming_call` written into the wrapper script. -/
def primingCall (fn work_dir pipeline : String) : List String :=
  ["source ~/.bashrc", "module load " ++ pipeline, "cd " ++ work_dir,
   "./" ++ pyBasename fn]

/-- The world after the Scheduler has written the wrapper script. -/
def submittedWorld (w : World) (fn work_dir pipeline : String) : World :=
  { w with fs := w.fs.addFile (bashScriptPath work_dir fn) (primingCall fn work_dir pipeline) }

/-- `submit_job(fn, work_dir, pipeline)`.  The `Submitter` call is modelled
from the spec: `qtools.Submitter` (the external Scheduler collaborator, not
part of this repository) writes the wrapper script at `bash_script` and
submits it to the queue.  The guard around it is the source code itself:
submit only when no wrapper script exists on disk yet. -/
def submit_job (w : World) (fn work_dir pipeline : String) : Out :=
  let jobname := splitextRoot (pyBasename fn)
  let bash_script := bashScriptPath work_dir fn
  if !pathExists w.fs bash_script then
    ⟨submittedWorld w fn work_dir pipeline, [.submitted jobname bash_script], none⟩
  else ⟨w, [], none⟩

/-- Configuration surface of `main` (argument defaults elided). -/
structure Cfg where
  work_dir : String
  results_dir : String
  pipeline : String
  bucket : String
deriving DecidableEq, Repr

/-- The body of the per-descriptor loop of `main`: run the detector, then the
action sequence of the detected state.  The `(1, none, _)` branch is
unreachable (`status` pairs error code 1 only with an existing run
directory). -/
def processJob (w : World) (cfg : Cfg) (jsonlike : String) : Out :=
  match status w.fs jsonlike with
  | .error e => ⟨w, [], some e⟩
  | .ok (error, res?, log?) =>
    if error = 1 then
      match res? with
      | some res =>
        (copy_files_aws w jsonlike cfg.bucket).andThen (fun w1 =>
          (copy_dir w1 res cfg.results_dir).andThen (fun w2 =>
            (remove w2 res).andThen (fun w3 =>
              remove_file w3 jsonlike)))
      | none => ⟨w, [], none⟩
    else
      match res? with
      | none => submit_job w jsonlike cfg.work_dir cfg.pipeline
      | some res =>
        match log? with
        | none => ⟨w, [], none⟩
        | some log_file =>
          match listdir w.fs (pyJoin res "results") with
          | .error e => ⟨w, [], some e⟩
          | .ok entries =>
            if entries ≠ [] then
              (copy_files_aws w jsonlike cfg.bucket).andThen (fun w1 =>
                (copy_dir w1 res cfg.results_dir).andThen (fun w2 =>
                  (remove_unnecessary_intermediates w2 res cfg.pipeline).andThen (fun w3 =>
                    (copy_dir_aws w3 res cfg.bucket).andThen (fun w4 =>
                      (remove w4 res).andThen (fun w5 =>
                        remove_file w5 jsonlike)))))
            else
              copy_files_aws w log_file cfg.bucket

/-- The per-descriptor loop of `main`: an uncaught exception from one job
aborts the loop (there is no try/except around the loop body). -/
def processPass (cfg : Cfg) : World → List String → Out
  | w, [] => ⟨w, [], none⟩
  | w, fn :: rest => (processJob w cfg fn).andThen (fun w2 => processPass cfg w2 rest)

/-- One whole pass of `main`: discover `*.json` descriptors in the working
directory, then run the loop. -/
def mainPass (w : World) (cfg : Cfg) : Out :=
  processPass cfg w (globStar w.fs cfg.work_dir ".json")

/-! ## Concrete worlds used to instantiate the theorems -/

/-- A world without injected failures. -/
def okWorld (fs : FS) : World := ⟨fs, [], [], []⟩

def cfgD : Cfg := ⟨"wd", "rs", "dropseqtools", "bkt"⟩

def cfgC : Cfg := ⟨"wd", "rs", "cellranger", "bkt"⟩

/-- Job with non-empty results and a failure marker in its log. -/
def fsSucceeded : FS :=
  { dirs := ["wd", "rs", "wd/j", "wd/j/results"],
    files := [("wd/j.json", []),
              ("wd/j/r_LOG.txt", ["step one", "permanentFail detected"]),
              ("wd/j/results/out.txt", ["x"])] }

/-- Job with empty results and a terminal marker in its log. -/
def fsFailed : FS :=
  { dirs := ["wd", "rs", "wd/j", "wd/j/results"],
    files := [("wd/j.json", []),
              ("wd/j/r_LOG.txt", ["working", "boom KeyboardInterrupt"])] }

/-- Job with empty results and a benign log. -/
def fsRunning : FS :=
  { dirs := ["wd", "rs", "wd/j", "wd/j/results"],
    files := [("wd/j.json", []), ("wd/j/r_LOG.txt", ["still going"])] }

/-- Job whose run directory exists without any log file yet. -/
def fsQueued : FS := { dirs := ["wd", "rs", "wd/j"], files := [("wd/j.json", [])] }

/-- Descriptor without a run directory. -/
def fsUnsubmitted : FS := { dirs := ["wd", "rs"], files := [("wd/j.json", [])] }

/-- Run directory with one log but no results subdirectory at all. -/
def fsNoResultsDir : FS :=
  { dirs := ["wd", "rs", "wd/j"],
    files := [("wd/j.json", []), ("wd/j/r_LOG.txt", ["x"])] }

/-- First job has two log files; second job is not yet submitted. -/
def fsTwoLogs : FS :=
  { dirs := ["wd", "rs", "wd/a"],
    files := [("wd/a.json", []), ("wd/b.json", []),
              ("wd/a/x_LOG.txt", []), ("wd/a/y_LOG.txt", [])] }

/-- Succeeded job whose recursive s3 upload will fail. -/
def wSwallow : World := ⟨fsSucceeded, [], ["wd/j"], []⟩

/-- Failed job whose descriptor upload will fail. -/
def wUploadFail : World := ⟨fsFailed, ["wd/j.json"], [], []⟩

/-- Failed job whose local copy will fail. -/
def wCopyFail : World := ⟨fsFailed, [], [], ["wd/j"]⟩

/-! ## Helper lemmas -/

theorem strEndsWith_append_slash (p : String) : strEndsWith (p ++ "/") "/" = true := by
  simp [strEndsWith]

theorem stripSlash_append_slash (p : String) : stripSlash (p ++ "/") = p := by
  simp [stripSlash, strEndsWith_append_slash]

theorem isDir_copyTree (fs : FS) (s d p : String) (h : fs.isDir p = true) :
    (fs.copyTree s d).isDir p = true := by
  simp only [FS.copyTree, FS.isDir, List.any_append]
  simp [FS.isDir] at h
  simp [h]

theorem isFile_copyTree (fs : FS) (s d p : String) (h : fs.isFile p = true) :
    (fs.copyTree s d).isFile p = true := by
  simp only [FS.copyTree, FS.isFile, List.any_append]
  simp [FS.isFile] at h
  simp [h]

theorem isFile_rmTree (fs : FS) (d p : String) (h1 : fs.isFile p = true)
    (h2 : (p == d) = false) (h3 : pathUnder d p = false) :
    (fs.rmTree d).isFile p = true := by
  simp only [FS.rmTree, FS.isFile, List.any_eq_true] at h1 ⊢
  obtain ⟨e, he, hbeq⟩ := h1
  refine ⟨e, List.mem_filter.mpr ⟨he, ?_⟩, hbeq⟩
  have : e.1 = p := by simpa using hbeq
  subst this
  simp [h2, h3]

theorem isDir_addFile (fs : FS) (q : String) (lines : List String) (p : String) :
    (fs.addFile q lines).isDir p = fs.isDir p := rfl

theorem isFile_addFile (fs : FS) (q : String) (lines : List String) (p : String) :
    (fs.addFile q lines).isFile p = (fs.isFile p || p == q) := by
  simp [FS.addFile, FS.isFile, List.any_append, BEq.comm]

theorem pathExists_addFile (fs : FS) (q : String) (lines : List String) (p : String) :
    pathExists (fs.addFile q lines) p = (pathExists fs p || p == q) := by
  simp [pathExists, isDir_addFile, isFile_addFile, Bool.or_assoc]

/-- Pruning with a pipeline other than dropseqtools iterates an empty suffix
list: no listing, no deletion, no exception. -/
theorem prune_nonDropseq (w : World) (res pipeline : String)
    (h : (pipeline == "dropseqtools") = false) :
    remove_unnecessary_intermediates w res pipeline = ⟨w, [], none⟩ := by
  simp [remove_unnecessary_intermediates, h]

/-! ## Claim theorems -/

/-- C1: for every job whose run directory exists, that contains exactly one
log file, and whose results directory is non-empty, `status` returns the
succeeded triple (error code 0 with the run directory and log file)
regardless of the contents of the log file — the `done` scan is never
consulted on this path. -/
theorem nonempty_results_succeed_unconditionally (fs : FS) (fn lf : String)
    (entries : List String)
    (hrun : pathExists fs (splitextRoot fn) = true)
    (hlog : globStar fs (splitextRoot fn) "_LOG.txt" = [lf])
    (hres : listdir fs (pyJoin (splitextRoot fn) "results") = .ok entries)
    (hne : entries ≠ []) :
    status fs fn = .ok (0, some (splitextRoot fn), some lf) := by
  simp [status, hrun, hlog, hres, hne]

/-- C1 witness: a concrete job whose log contains the permanentFail marker
(the `done` scan would report true) and whose results directory is
non-empty is still reported succeeded. -/
theorem nonempty_results_succeed_unconditionally_witness :
    pathExists fsSucceeded (splitextRoot "wd/j.json") = true ∧
    globStar fsSucceeded (splitextRoot "wd/j.json") "_LOG.txt" = ["wd/j/r_LOG.txt"] ∧
    listdir fsSucceeded (pyJoin (splitextRoot "wd/j.json") "results") = .ok ["out.txt"] ∧
    doneLines ((fsSucceeded.findFile "wd/j/r_LOG.txt").getD []) = true ∧
    status fsSucceeded "wd/j.json" =
      .ok (0, some (splitextRoot "wd/j.json"), some "wd/j/r_LOG.txt") :=
  ⟨by decide, by decide, by decide, by decide,
   nonempty_results_succeed_unconditionally fsSucceeded "wd/j.json" "wd/j/r_LOG.txt"
     ["out.txt"] (by decide) (by decide) (by decide) (by decide)⟩

/-- C2 counterexample: a succeeded job whose recursive s3 upload
(`copy_dir_aws`) is injected to fail still runs its deletion steps — the
run directory and the descriptor are removed even though an upload step of
the sequence failed, contradicting the claim that any failed upload aborts
the sequence with all working-directory artifacts left untouched. -/
theorem swallowed_upload_failure_still_deletes :
    wSwallow.failUploadDir.contains "wd/j" = true ∧
    (processJob wSwallow cfgD "wd/j.json").trace =
      [.uploadFile "wd/j.json" "bkt", .localCopyDir "wd/j" "rs/j",
       .removedTree "wd/j", .removedFile "wd/j.json"] ∧
    (processJob wSwallow cfgD "wd/j.json").exn = none ∧
    pathExists (processJob wSwallow cfgD "wd/j.json").world.fs "wd/j" = false ∧
    (processJob wSwallow cfgD "wd/j.json").world.fs.isFile "wd/j.json" = false := by
  refine ⟨by decide, by decide, by decide, by decide, by decide⟩

/-- C2 amended: for terminal jobs, a failure of the descriptor upload
(`copy_files_aws`, the first step of both terminal sequences) aborts the
whole sequence with the world untouched; a failure of the local copy
(`copy_dir`) aborts after only the upload event, before any deletion; when
the raising steps succeed, deletion of the run directory and the descriptor
forms the final two actions of the trace — but a failure of the recursive
s3 upload (`copy_dir_aws`) is swallowed, and deletion proceeds regardless
(the if-branch in the succeeded-path trace). -/
theorem terminal_upload_failure_handling (w : World) (cfg : Cfg) (fn rd lf : String)
    (es : List String) :
    ((status w.fs fn = .ok (1, some rd, some lf) ∨
      (status w.fs fn = .ok (0, some rd, some lf) ∧
       listdir w.fs (pyJoin rd "results") = .ok es ∧ es ≠ [])) →
     w.failUpload.contains fn = true →
     processJob w cfg fn = ⟨w, [], some (.ioError "upload_file" fn)⟩) ∧
    ((status w.fs fn = .ok (1, some rd, some lf) ∨
      (status w.fs fn = .ok (0, some rd, some lf) ∧
       listdir w.fs (pyJoin rd "results") = .ok es ∧ es ≠ [])) →
     w.failUpload.contains fn = false →
     w.fs.isDir rd = true → w.fs.isFile rd = false →
     strEndsWith rd "/" = false →
     pathExists w.fs (copyDirTarget rd cfg.results_dir) = false →
     w.failCopyDir.contains rd = true →
     processJob w cfg fn =
       ⟨w, [.uploadFile fn cfg.bucket], some (.ioError "copytree" rd)⟩) ∧
    (status w.fs fn = .ok (1, some rd, some lf) →
     w.failUpload.contains fn = false →
     w.fs.isDir rd = true → w.fs.isFile rd = false →
     strEndsWith rd "/" = false →
     pathExists w.fs (copyDirTarget rd cfg.results_dir) = false →
     w.failCopyDir.contains rd = false →
     w.fs.isFile fn = true → (fn == rd) = false → pathUnder rd fn = false →
     ∃ w2, processJob w cfg fn =
       ⟨w2, [.uploadFile fn cfg.bucket,
             .localCopyDir rd (copyDirTarget rd cfg.results_dir),
             .removedTree rd, .removedFile fn], none⟩) ∧
    (status w.fs fn = .ok (0, some rd, some lf) →
     listdir w.fs (pyJoin rd "results") = .ok es → es ≠ [] →
     (cfg.pipeline == "dropseqtools") = false →
     w.failUpload.contains fn = false →
     w.fs.isDir rd = true → w.fs.isFile rd = false →
     strEndsWith rd "/" = false →
     pathExists w.fs (copyDirTarget rd cfg.results_dir) = false →
     w.failCopyDir.contains rd = false →
     w.fs.isFile fn = true → (fn == rd) = false → pathUnder rd fn = false →
     ∃ w2, processJob w cfg fn =
       ⟨w2, [.uploadFile fn cfg.bucket,
             .localCopyDir rd (copyDirTarget rd cfg.results_dir)] ++
            (if w.failUploadDir.contains rd then []
             else [.uploadDir (ensureSlash rd) (awsUploadDest rd cfg.bucket)]) ++
            [.removedTree rd, .removedFile fn], none⟩) := by
  refine ⟨?_, ?_, ?_, ?_⟩
  · rintro (hstat | ⟨hstat, hres, hne⟩) hup <;>
      have hup' : fn ∈ w.failUpload := by simpa using hup
    · simp [processJob, hstat, copy_files_aws, hup', Out.andThen]
    · simp [processJob, hstat, hres, hne, copy_files_aws, hup', Out.andThen]
  · intro hterm hup hdir hnotfile hslash htarget hcp
    have hup' : fn ∉ w.failUpload := by simpa using hup
    have hpe : pathExists w.fs rd = true := by simp [pathExists, hdir]
    have hcp' : rd ∈ w.failCopyDir := by simpa using hcp
    have e1 : copy_files_aws w fn cfg.bucket = ⟨w, [.uploadFile fn cfg.bucket], none⟩ := by
      simp [copy_files_aws, hup']
    have e2 : copy_dir w rd cfg.results_dir = ⟨w, [], some (.ioError "copytree" rd)⟩ := by
      simp [copy_dir, ensureSlash, hslash, stripSlash_append_slash, hpe, hnotfile,
            htarget, hcp']
    rcases hterm with hstat | ⟨hstat, hres, hne⟩
    · simp [processJob, hstat, e1, e2, Out.andThen]
    · simp [processJob, hstat, hres, hne, e1, e2, Out.andThen]
  · intro hstat hup hdir hnotfile hslash htarget hcp hjson hfnd hfnu
    have hup' : fn ∉ w.failUpload := by simpa using hup
    have hpe : pathExists w.fs rd = true := by simp [pathExists, hdir]
    have hcp' : rd ∉ w.failCopyDir := by simpa using hcp
    have e1 : copy_files_aws w fn cfg.bucket = ⟨w, [.uploadFile fn cfg.bucket], none⟩ := by
      simp [copy_files_aws, hup']
    have e2 : copy_dir w rd cfg.results_dir =
        ⟨{ w with fs := w.fs.copyTree rd (copyDirTarget rd cfg.results_dir) },
         [.localCopyDir rd (copyDirTarget rd cfg.results_dir)], none⟩ := by
      simp [copy_dir, ensureSlash, hslash, stripSlash_append_slash, hpe, hnotfile,
            htarget, hcp']
    have hdir2 : (w.fs.copyTree rd (copyDirTarget rd cfg.results_dir)).isDir rd = true :=
      isDir_copyTree _ _ _ _ hdir
    have hfile2 :
        ((w.fs.copyTree rd (copyDirTarget rd cfg.results_dir)).rmTree rd).isFile fn = true :=
      isFile_rmTree _ _ _ (isFile_copyTree _ _ _ _ hjson) hfnd hfnu
    refine ⟨{ w with fs :=
      ((w.fs.copyTree rd (copyDirTarget rd cfg.results_dir)).rmTree rd).rmFile fn }, ?_⟩
    simp [processJob, hstat, e1, e2, Out.andThen, remove, hdir2, remove_file,
          pathExists, hfile2]
  · intro hstat hres hne hpipe hup hdir hnotfile hslash htarget hcp hjson hfnd hfnu
    have hup' : fn ∉ w.failUpload := by simpa using hup
    have hpe : pathExists w.fs rd = true := by simp [pathExists, hdir]
    have hcp' : rd ∉ w.failCopyDir := by simpa using hcp
    have e1 : copy_files_aws w fn cfg.bucket = ⟨w, [.uploadFile fn cfg.bucket], none⟩ := by
      simp [copy_files_aws, hup']
    have e2 : copy_dir w rd cfg.results_dir =
        ⟨{ w with fs := w.fs.copyTree rd (copyDirTarget rd cfg.results_dir) },
         [.localCopyDir rd (copyDirTarget rd cfg.results_dir)], none⟩ := by
      simp [copy_dir, ensureSlash, hslash, stripSlash_append_slash, hpe, hnotfile,
            htarget, hcp']
    have hdir2 : (w.fs.copyTree rd (copyDirTarget rd cfg.results_dir)).isDir rd = true :=
      isDir_copyTree _ _ _ _ hdir
    have hfile2 :
        ((w.fs.copyTree rd (copyDirTarget rd cfg.results_dir)).rmTree rd).isFile fn = true :=
      isFile_rmTree _ _ _ (isFile_copyTree _ _ _ _ hjson) hfnd hfnu
    have e5 : remove_unnecessary_intermediates
        { w with fs := w.fs.copyTree rd (copyDirTarget rd cfg.results_dir) } rd cfg.pipeline =
        ⟨{ w with fs := w.fs.copyTree rd (copyDirTarget rd cfg.results_dir) }, [], none⟩ :=
      prune_nonDropseq _ _ _ hpipe
    refine ⟨{ w with fs :=
      ((w.fs.copyTree rd (copyDirTarget rd cfg.results_dir)).rmTree rd).rmFile fn }, ?_⟩
    by_cases hud : w.failUploadDir.contains rd
    · have hud' : rd ∈ w.failUploadDir := by simpa using hud
      simp [processJob, hstat, hres, hne, e1, e2, e5, Out.andThen, copy_dir_aws, hud, hud',
            remove, hdir2, remove_file, pathExists, hfile2]
    · have hud' : rd ∉ w.failUploadDir := by simpa using hud
      simp [processJob, hstat, hres, hne, e1, e2, e5, Out.andThen, copy_dir_aws, hud, hud',
            remove, hdir2, remove_file, pathExists, hfile2]

/-- C2 witness: the four conjuncts of the amended claim instantiated on
concrete worlds — a failing descriptor upload in the failed path, a failing
local copy in the failed path, a fully successful failed path with deletion
last, and a succeeded path with a swallowed recursive-upload failure. -/
theorem terminal_upload_failure_handling_witness :
    (processJob wUploadFail cfgD "wd/j.json" =
      ⟨wUploadFail, [], some (.ioError "upload_file" "wd/j.json")⟩) ∧
    (processJob wCopyFail cfgD "wd/j.json" =
      ⟨wCopyFail, [.uploadFile "wd/j.json" "bkt"], some (.ioError "copytree" "wd/j")⟩) ∧
    (∃ w2, processJob (okWorld fsFailed) cfgD "wd/j.json" =
      ⟨w2, [.uploadFile "wd/j.json" "bkt",
            .localCopyDir "wd/j" (copyDirTarget "wd/j" "rs"),
            .removedTree "wd/j", .removedFile "wd/j.json"], none⟩) ∧
    (∃ w2, processJob wSwallow cfgC "wd/j.json" =
      ⟨w2, [.uploadFile "wd/j.json" "bkt",
            .localCopyDir "wd/j" (copyDirTarget "wd/j" "rs")] ++
           (if wSwallow.failUploadDir.contains "wd/j" then []
            else [.uploadDir (ensureSlash "wd/j") (awsUploadDest "wd/j" "bkt")]) ++
           [.removedTree "wd/j", .removedFile "wd/j.json"], none⟩) :=
  ⟨(terminal_upload_failure_handling wUploadFail cfgD "wd/j.json" "wd/j"
      "wd/j/r_LOG.txt" []).1 (Or.inl (by decide)) (by decide),
   (terminal_upload_failure_handling wCopyFail cfgD "wd/j.json" "wd/j"
      "wd/j/r_LOG.txt" []).2.1 (Or.inl (by decide)) (by decide) (by decide)
      (by decide) (by decide) (by decide) (by decide),
   (terminal_upload_failure_handling (okWorld fsFailed) cfgD "wd/j.json" "wd/j"
      "wd/j/r_LOG.txt" []).2.2.1 (by decide) (by decide) (by decide) (by decide)
      (by decide) (by decide) (by decide) (by decide) (by decide) (by decide),
   (terminal_upload_failure_handling wSwallow cfgC "wd/j.json" "wd/j"
      "wd/j/r_LOG.txt" ["out.txt"]).2.2.2 (by decide) (by decide) (by decide)
      (by decide) (by decide) (by decide) (by decide) (by decide) (by decide)
      (by decide) (by decide) (by decide) (by decide)⟩

/-- C3 counterexample: the working directory holds two descriptors; the
first job has two log files.  The whole pass aborts with the assertion
error and an empty trace — the second job, which would have emitted a
submission event, is never processed, contradicting the claim that a
structural anomaly is not fatal to the pass. -/
theorem structural_error_kills_pass :
    globStar fsTwoLogs "wd" ".json" = ["wd/a.json", "wd/b.json"] ∧
    globStar fsTwoLogs (splitextRoot "wd/a.json") "_LOG.txt" =
      ["wd/a/x_LOG.txt", "wd/a/y_LOG.txt"] ∧
    mainPass (okWorld fsTwoLogs) cfgD = ⟨okWorld fsTwoLogs, [], some .assertionError⟩ ∧
    (processJob (okWorld fsTwoLogs) cfgD "wd/b.json").trace =
      [.submitted "b" "wd/b.json.sh"] := by
  refine ⟨by decide, by decide, by decide, by decide⟩

/-- C3 amended: a run directory with more than one log file makes `status`
re-raise the assertion error (the StructuralError), and because the per-job
loop has no handler the error is fatal to the pass: the affected job is
neither deleted nor submitted, and no job after it in the same pass is
processed. -/
theorem multiple_logs_abort_pass (w : World) (cfg : Cfg) (fn l1 l2 : String)
    (ls rest : List String)
    (hrun : pathExists w.fs (splitextRoot fn) = true)
    (hlog : globStar w.fs (splitextRoot fn) "_LOG.txt" = l1 :: l2 :: ls) :
    status w.fs fn = .error .assertionError ∧
    processPass cfg w (fn :: rest) = ⟨w, [], some .assertionError⟩ := by
  have hs : status w.fs fn = .error .assertionError := by
    simp [status, hrun, hlog]
  refine ⟨hs, ?_⟩
  simp [processPass, processJob, hs, Out.andThen]

/-- C3 witness: the two-log job aborts a concrete pass that still had a
second descriptor to process. -/
theorem multiple_logs_abort_pass_witness :
    pathExists fsTwoLogs (splitextRoot "wd/a.json") = true ∧
    globStar fsTwoLogs (splitextRoot "wd/a.json") "_LOG.txt" =
      "wd/a/x_LOG.txt" :: "wd/a/y_LOG.txt" :: [] ∧
    (status fsTwoLogs "wd/a.json" = .error .assertionError ∧
     processPass cfgD (okWorld fsTwoLogs) ["wd/a.json", "wd/b.json"] =
       ⟨okWorld fsTwoLogs, [], some .assertionError⟩) :=
  ⟨by decide, by decide,
   multiple_logs_abort_pass (okWorld fsTwoLogs) cfgD "wd/a.json"
     "wd/a/x_LOG.txt" "wd/a/y_LOG.txt" [] ["wd/b.json"] (by decide) (by decide)⟩

/-- C4: with an existing run directory, exactly one log and an empty results
directory, `status` returns the failed triple (error code 1) precisely when
some log line passes the terminal-marker scan (`isTerminalLine`: a line
whose rstripped text ends with one of the two terminal-success phrases or
the KeyboardInterrupt marker, or contains the permanentFail substring), and
the running triple (error code 0 with the log file) otherwise. -/
theorem empty_results_log_scan_decides (fs : FS) (fn lf : String) (lines : List String)
    (hrun : pathExists fs (splitextRoot fn) = true)
    (hlog : globStar fs (splitextRoot fn) "_LOG.txt" = [lf])
    (hres : listdir fs (pyJoin (splitextRoot fn) "results") = .ok [])
    (hfile : fs.findFile lf = some lines) :
    (lines.any isTerminalLine = true →
      status fs fn = .ok (1, some (splitextRoot fn), some lf)) ∧
    (lines.any isTerminalLine = false →
      status fs fn = .ok (0, some (splitextRoot fn), some lf)) := by
  constructor <;> intro h <;>
    simp [status, hrun, hlog, hres, doneFile, hfile, doneLines, h]

/-- C4 witness: a marker-bearing log yields the failed triple and a benign
log yields the running triple, on concrete filesystems. -/
theorem empty_results_log_scan_decides_witness :
    (fsFailed.findFile "wd/j/r_LOG.txt" =
      some ["working", "boom KeyboardInterrupt"]) ∧
    (["working", "boom KeyboardInterrupt"].any isTerminalLine = true) ∧
    status fsFailed "wd/j.json" = .ok (1, some "wd/j", some "wd/j/r_LOG.txt") ∧
    (fsRunning.findFile "wd/j/r_LOG.txt" = some ["still going"]) ∧
    (["still going"].any isTerminalLine = false) ∧
    status fsRunning "wd/j.json" = .ok (0, some "wd/j", some "wd/j/r_LOG.txt") :=
  ⟨by decide, by decide,
   (empty_results_log_scan_decides fsFailed "wd/j.json" "wd/j/r_LOG.txt"
     ["working", "boom KeyboardInterrupt"] (by decide) (by decide) (by decide)
     (by decide)).1 (by decide),
   by decide, by decide,
   (empty_results_log_scan_decides fsRunning "wd/j.json" "wd/j/r_LOG.txt"
     ["still going"] (by decide) (by decide) (by decide) (by decide)).2 (by decide)⟩

/-- C5: evaluation of the failed-path action sequence on a concrete failed
job.  The trace uploads only the descriptor file, then copies the run
directory locally, then deletes the run directory and the descriptor; no
upload of the log file ever appears, contrary to the claim (and to the
module docstring of the source, which lists the log-file upload first). -/
theorem failed_path_never_uploads_log :
    status fsFailed "wd/j.json" = .ok (1, some "wd/j", some "wd/j/r_LOG.txt") ∧
    (processJob (okWorld fsFailed) cfgD "wd/j.json").trace =
      [.uploadFile "wd/j.json" "bkt", .localCopyDir "wd/j" "rs/j",
       .removedTree "wd/j", .removedFile "wd/j.json"] ∧
    (processJob (okWorld fsFailed) cfgD "wd/j.json").exn = none ∧
    ((processJob (okWorld fsFailed) cfgD "wd/j.json").trace.contains
      (.uploadFile "wd/j/r_LOG.txt" "bkt")) = false := by
  refine ⟨by decide, by decide, by decide, by decide⟩

/-- C6: a descriptor without a run directory is detected as unsubmitted
(error 0, no run directory, no log), and the orchestrator submits if and
only if no wrapper script exists on disk: a first pass creates the script
and emits one submission event, an immediate second pass emits none, and a
pre-existing script suppresses submission entirely. -/
theorem unsubmitted_submit_exactly_once (w : World) (cfg : Cfg) (fn : String)
    (hrun : pathExists w.fs (splitextRoot fn) = false)
    (hdist : (splitextRoot fn == bashScriptPath cfg.work_dir fn) = false) :
    status w.fs fn = .ok (0, none, none) ∧
    (pathExists w.fs (bashScriptPath cfg.work_dir fn) = false →
      processJob w cfg fn =
        ⟨submittedWorld w fn cfg.work_dir cfg.pipeline,
         [.submitted (splitextRoot (pyBasename fn)) (bashScriptPath cfg.work_dir fn)],
         none⟩ ∧
      processJob (submittedWorld w fn cfg.work_dir cfg.pipeline) cfg fn =
        ⟨submittedWorld w fn cfg.work_dir cfg.pipeline, [], none⟩) ∧
    (pathExists w.fs (bashScriptPath cfg.work_dir fn) = true →
      processJob w cfg fn = ⟨w, [], none⟩) := by
  have hs : status w.fs fn = .ok (0, none, none) := by simp [status, hrun]
  refine ⟨hs, fun hscript => ⟨?_, ?_⟩, fun hscript => ?_⟩
  · simp [processJob, hs, submit_job, hscript]
  · have hrun2 : pathExists (w.fs.addFile (bashScriptPath cfg.work_dir fn)
        (primingCall fn cfg.work_dir cfg.pipeline)) (splitextRoot fn) = false := by
      simp [pathExists_addFile, hrun, hdist]
    have hs2 : status (w.fs.addFile (bashScriptPath cfg.work_dir fn)
        (primingCall fn cfg.work_dir cfg.pipeline)) fn = .ok (0, none, none) := by
      simp [status, hrun2]
    simp [processJob, submittedWorld, hs2, submit_job, pathExists_addFile]
  · simp [processJob, hs, submit_job, hscript]

/-- C6 witness: submitting a concrete fresh descriptor once creates the
wrapper script and a second run does not resubmit. -/
theorem unsubmitted_submit_exactly_once_witness :
    pathExists fsUnsubmitted (splitextRoot "wd/j.json") = false ∧
    pathExists fsUnsubmitted (bashScriptPath "wd" "wd/j.json") = false ∧
    (processJob (okWorld fsUnsubmitted) cfgD "wd/j.json" =
       ⟨submittedWorld (okWorld fsUnsubmitted) "wd/j.json" "wd" "dropseqtools",
        [.submitted "j" "wd/j.json.sh"], none⟩ ∧
     processJob (submittedWorld (okWorld fsUnsubmitted) "wd/j.json" "wd" "dropseqtools")
         cfgD "wd/j.json" =
       ⟨submittedWorld (okWorld fsUnsubmitted) "wd/j.json" "wd" "dropseqtools",
        [], none⟩) := by
  refine ⟨by decide, by decide, ?_⟩
  exact (unsubmitted_submit_exactly_once (okWorld fsUnsubmitted) cfgD "wd/j.json"
    (by decide) (by decide)).2.1 (by decide)

/-- C7: a running job (existing run directory, one log, empty results, no
terminal marker) makes the orchestrator upload the current log file and do
nothing else: the resulting world is unchanged and the trace holds exactly
the one upload event. -/
theorem running_job_only_uploads_log (w : World) (cfg : Cfg) (fn lf : String)
    (lines : List String)
    (hrun : pathExists w.fs (splitextRoot fn) = true)
    (hlog : globStar w.fs (splitextRoot fn) "_LOG.txt" = [lf])
    (hres : listdir w.fs (pyJoin (splitextRoot fn) "results") = .ok [])
    (hfile : w.fs.findFile lf = some lines)
    (hnot : lines.any isTerminalLine = false)
    (hfail : w.failUpload.contains lf = false) :
    processJob w cfg fn = ⟨w, [.uploadFile lf cfg.bucket], none⟩ := by
  have hs : status w.fs fn = .ok (0, some (splitextRoot fn), some lf) :=
    (empty_results_log_scan_decides w.fs fn lf lines hrun hlog hres hfile).2 hnot
  simp [processJob, hs, hres, copy_files_aws]
  simpa using hfail

/-- C7 witness: a concrete running job uploads its log and leaves the world
untouched. -/
theorem running_job_only_uploads_log_witness :
    pathExists fsRunning (splitextRoot "wd/j.json") = true ∧
    listdir fsRunning (pyJoin (splitextRoot "wd/j.json") "results") = .ok [] ∧
    processJob (okWorld fsRunning) cfgD "wd/j.json" =
      ⟨okWorld fsRunning, [.uploadFile "wd/j/r_LOG.txt" "bkt"], none⟩ :=
  ⟨by decide, by decide,
   running_job_only_uploads_log (okWorld fsRunning) cfgD "wd/j.json" "wd/j/r_LOG.txt"
     ["still going"] (by decide) (by decide) (by decide) (by decide) (by decide)
     (by decide)⟩

/-- C8: a run directory with zero matching log files is detected as queued
(error 0, run directory, no log file) and the orchestrator performs no
action for that job in this pass. -/
theorem queued_job_no_action (w : World) (cfg : Cfg) (fn : String)
    (hrun : pathExists w.fs (splitextRoot fn) = true)
    (hlog : globStar w.fs (splitextRoot fn) "_LOG.txt" = []) :
    status w.fs fn = .ok (0, some (splitextRoot fn), none) ∧
    processJob w cfg fn = ⟨w, [], none⟩ := by
  have hs : status w.fs fn = .ok (0, some (splitextRoot fn), none) := by
    simp [status, hrun, hlog]
  exact ⟨hs, by simp [processJob, hs]⟩

/-- C8 witness: a concrete queued job produces no event and no change. -/
theorem queued_job_no_action_witness :
    pathExists fsQueued (splitextRoot "wd/j.json") = true ∧
    globStar fsQueued (splitextRoot "wd/j.json") "_LOG.txt" = [] ∧
    (status fsQueued "wd/j.json" = .ok (0, some (splitextRoot "wd/j.json"), none) ∧
     processJob (okWorld fsQueued) cfgD "wd/j.json" = ⟨okWorld fsQueued, [], none⟩) :=
  ⟨by decide, by decide,
   queued_job_no_action (okWorld fsQueued) cfgD "wd/j.json" (by decide) (by decide)⟩

/-- C9: any pipeline name other than dropseqtools selects the empty pattern
list — the pruning deletes nothing, raises nothing, and leaves the world
unchanged (it never even lists the results directory). -/
theorem unknown_pipeline_prunes_nothing (w : World) (res pipeline : String)
    (h : (pipeline == "dropseqtools") = false) :
    remove_unnecessary_intermediates w res pipeline = ⟨w, [], none⟩ :=
  prune_nonDropseq w res pipeline h

/-- C9 witness: the cellranger pipeline prunes nothing, even on a world
where the results directory does not exist at all. -/
theorem unknown_pipeline_prunes_nothing_witness :
    (("cellranger" : String) == "dropseqtools") = false ∧
    remove_unnecessary_intermediates (okWorld fsUnsubmitted) "wd/j" "cellranger" =
      ⟨okWorld fsUnsubmitted, [], none⟩ :=
  ⟨by decide,
   unknown_pipeline_prunes_nothing (okWorld fsUnsubmitted) "wd/j" "cellranger"
     (by decide)⟩

/-- C10: when the run directory exists with exactly one log file but the
results subdirectory does not exist, `status` returns no lifecycle state
and no assertion error: the listing raises a file-not-found error, which
the per-job loop does not catch, so the pass aborts with that error. -/
theorem missing_results_dir_uncaught (w : World) (cfg : Cfg) (fn lf : String)
    (rest : List String)
    (hrun : pathExists w.fs (splitextRoot fn) = true)
    (hlog : globStar w.fs (splitextRoot fn) "_LOG.txt" = [lf])
    (hres : pathExists w.fs (pyJoin (splitextRoot fn) "results") = false) :
    status w.fs fn =
      .error (.fileNotFoundError (pyJoin (splitextRoot fn) "results")) ∧
    processPass cfg w (fn :: rest) =
      ⟨w, [], some (.fileNotFoundError (pyJoin (splitextRoot fn) "results"))⟩ := by
  have hboth := hres
  simp only [pathExists, Bool.or_eq_false_iff] at hboth
  have hs : status w.fs fn =
      .error (.fileNotFoundError (pyJoin (splitextRoot fn) "results")) := by
    simp [status, hrun, hlog, listdir, hboth.1, hboth.2]
  refine ⟨hs, ?_⟩
  simp [processPass, processJob, hs, Out.andThen]

/-- C10 witness: a concrete job with a log but no results directory aborts
the pass with the uncaught file-not-found error. -/
theorem missing_results_dir_uncaught_witness :
    pathExists fsNoResultsDir (splitextRoot "wd/j.json") = true ∧
    globStar fsNoResultsDir (splitextRoot "wd/j.json") "_LOG.txt" = ["wd/j/r_LOG.txt"] ∧
    pathExists fsNoResultsDir (pyJoin (splitextRoot "wd/j.json") "results") = false ∧
    (status fsNoResultsDir "wd/j.json" =
      .error (.fileNotFoundError (pyJoin (splitextRoot "wd/j.json") "results")) ∧
     processPass cfgD (okWorld fsNoResultsDir) ["wd/j.json"] =
      ⟨okWorld fsNoResultsDir, [],
       some (.fileNotFoundError (pyJoin (splitextRoot "wd/j.json") "results"))⟩) :=
  ⟨by decide, by decide, by decide,
   missing_results_dir_uncaught (okWorld fsNoResultsDir) cfgD "wd/j.json"
     "wd/j/r_LOG.txt" [] (by decide) (by decide) (by decide)⟩

end GenerateJobs
